import Mathlib

/-!
Shallow embedding of the beacon verification and round/time calculus of the
drand-rs repository (crates `drand_core` and `dee`), together with theorems
settling the frozen claims about it.

Conventions:
* Rust `u64` values are `Nat` together with explicit `% 2^64` where overflow
  or casts matter; `i64` values are `Int`, with `Int.tdiv` for Rust's
  truncating `/` and `toI64` / `toU64` for `as i64` / `as u64` casts.
* Byte strings (`Vec<u8>`, `&[u8]`) are `List Nat` (each entry < 256).
* Fallible Rust functions returning `Result` are embedded as
  `Except String` / dedicated outcome inductives; a Rust panic is a dedicated
  `panicked` constructor, kept separate from returned errors.
* The BLS12-381 pairing and point deserialization (the `ark-*` crates) are
  abstracted as an oracle `BlsOracle`; everything around them (dispatch on
  signature length, domain-tag selection, message computation, the SHA-256
  randomness check) is embedded concretely.
-/

/-! ### SHA-256 (the `sha2` crate as used by `beacon.rs`) -/

/-- Truncate to 32 bits. -/
def m32 (n : Nat) : Nat := n % 4294967296

/-- Right rotation of a 32-bit word. -/
def rotr (n x : Nat) : Nat := (x >>> n) ||| m32 (x <<< (32 - n))

def shaCh (x y z : Nat) : Nat := (x &&& y) ^^^ ((x ^^^ 4294967295) &&& z)

def shaMaj (x y z : Nat) : Nat := (x &&& y) ^^^ (x &&& z) ^^^ (y &&& z)

def bigSigma0 (x : Nat) : Nat := rotr 2 x ^^^ rotr 13 x ^^^ rotr 22 x

def bigSigma1 (x : Nat) : Nat := rotr 6 x ^^^ rotr 11 x ^^^ rotr 25 x

def smallSigma0 (x : Nat) : Nat := rotr 7 x ^^^ rotr 18 x ^^^ (x >>> 3)

def smallSigma1 (x : Nat) : Nat := rotr 17 x ^^^ rotr 19 x ^^^ (x >>> 10)

def k256 : List Nat :=
  [1116352408, 1899447441, 3049323471, 3921009573, 961987163,
   1508970993, 2453635748, 2870763221, 3624381080, 310598401,
   607225278, 1426881987, 1925078388, 2162078206, 2614888103,
   3248222580, 3835390401, 4022224774, 264347078, 604807628,
   770255983, 1249150122, 1555081692, 1996064986, 2554220882,
   2821834349, 2952996808, 3210313671, 3336571891, 3584528711,
   113926993, 338241895, 666307205, 773529912, 1294757372,
   1396182291, 1695183700, 1986661051, 2177026350, 2456956037,
   2730485921, 2820302411, 3259730800, 3345764771, 3516065817,
   3600352804, 4094571909, 275423344, 430227734, 506948616,
   659060556, 883997877, 958139571, 1322822218, 1537002063,
   1747873779, 1955562222, 2024104815, 2227730452, 2361852424,
   2428436474, 2756734187, 3204031479, 3329325298]

def sha256InitHash : List Nat :=
  [1779033703, 3144134277, 1013904242, 2773480762,
   1359893119, 2600822924, 528734635, 1541459225]

/-- Big-endian 8-byte encoding of a `u64` (`u64::to_be_bytes`). -/
def be8 (n : Nat) : List Nat :=
  [n >>> 56 % 256, n >>> 48 % 256, n >>> 40 % 256, n >>> 32 % 256,
   n >>> 24 % 256, n >>> 16 % 256, n >>> 8 % 256, n % 256]

/-- Group bytes into big-endian 32-bit words. -/
def toWords : List Nat → List Nat
  | b0 :: b1 :: b2 :: b3 :: rest =>
      (((b0 * 256 + b1) * 256 + b2) * 256 + b3) :: toWords rest
  | _ => []

/-- Extend the 16-word schedule by `n` further words. -/
def extendW : Nat → List Nat → List Nat
  | 0, w => w
  | n + 1, w =>
      let l := w.length
      extendW n (w ++ [m32 (smallSigma1 (w.getD (l - 2) 0) + w.getD (l - 7) 0 +
        smallSigma0 (w.getD (l - 15) 0) + w.getD (l - 16) 0)])

def roundStep (st : List Nat) (kw : Nat × Nat) : List Nat :=
  match st with
  | [a, b, c, d, e, f, g, h] =>
      let t1 := m32 (h + bigSigma1 e + shaCh e f g + kw.1 + kw.2)
      let t2 := m32 (bigSigma0 a + shaMaj a b c)
      [m32 (t1 + t2), a, b, c, m32 (d + t1), e, f, g]
  | other => other

def processBlock (hs : List Nat) (block : List Nat) : List Nat :=
  let w := extendW 48 (toWords block)
  let st := (k256.zip w).foldl roundStep hs
  (hs.zip st).map (fun p => m32 (p.1 + p.2))

/-- SHA-256 padding: `0x80`, zeros, then the bit length as 8 bytes. -/
def padMsg (m : List Nat) : List Nat :=
  let l := m.length
  let k := (64 - ((l + 9) % 64)) % 64
  m ++ (128 :: List.replicate k 0) ++ be8 (8 * l)

def chunks64 : Nat → List Nat → List (List Nat)
  | 0, _ => []
  | _, [] => []
  | fuel + 1, l => l.take 64 :: chunks64 fuel (l.drop 64)

/-- SHA-256 of a byte string, as a 32-byte string. -/
def sha256 (m : List Nat) : List Nat :=
  let padded := padMsg m
  let hs := (chunks64 padded.length padded).foldl processBlock sha256InitHash
  hs.foldr (fun w acc =>
    (w >>> 24 % 256) :: (w >>> 16 % 256) :: (w >>> 8 % 256) :: (w % 256) :: acc) []

/-! ### Chain info (`chain.rs`) -/

/-- Rust `str::contains` on the characters of `hay` (substring test). -/
def containsAux (needle : List Char) : List Char → Bool
  | [] => needle.isEmpty
  | c :: t => needle.isPrefixOf (c :: t) || containsAux needle t

/-- Rust `String::contains(needle)`. -/
def strContains (hay needle : String) : Bool := containsAux needle.data hay.data

structure ChainMetadata where
  beacon_id : String
deriving DecidableEq, Repr

structure ChainInfo where
  public_key : List Nat
  period : Nat
  genesis_time : Nat
  hash : List Nat
  group_hash : List Nat
  scheme_id : String
  metadata : ChainMetadata
deriving DecidableEq, Repr

/-- `ChainInfo::is_rfc9380`: the scheme id contains `"rfc9380"`. -/
def ChainInfo.is_rfc9380 (info : ChainInfo) : Bool :=
  strContains info.scheme_id "rfc9380"

/-- `ChainInfo::is_unchained`: the scheme id contains `"unchained"`. -/
def ChainInfo.is_unchained (info : ChainInfo) : Bool :=
  strContains info.scheme_id "unchained"

/-! ### Beacon model (`beacon.rs`) -/

structure ChainedBeacon where
  round : Nat
  randomness : List Nat
  signature : List Nat
  previous_signature : List Nat
deriving DecidableEq, Repr

structure UnchainedBeacon where
  round : Nat
  randomness : List Nat
  signature : List Nat
deriving DecidableEq, Repr

inductive ApiBeacon where
  | ChainedBeacon (b : ChainedBeacon)
  | UnchainedBeacon (b : UnchainedBeacon)
deriving DecidableEq, Repr

def ApiBeacon.round : ApiBeacon → Nat
  | .ChainedBeacon chained => chained.round
  | .UnchainedBeacon unchained => unchained.round

def ApiBeacon.randomness : ApiBeacon → List Nat
  | .ChainedBeacon chained => chained.randomness
  | .UnchainedBeacon unchained => unchained.randomness

def ApiBeacon.signature : ApiBeacon → List Nat
  | .ChainedBeacon chained => chained.signature
  | .UnchainedBeacon unchained => unchained.signature

def ApiBeacon.is_unchained : ApiBeacon → Bool
  | .ChainedBeacon _ => false
  | .UnchainedBeacon _ => true

def ApiBeacon.is_g1 : ApiBeacon → Bool
  | .ChainedBeacon _ => false
  | .UnchainedBeacon unchained => unchained.signature.length == 48

/-- `slice::clone_from_slice`: copies `src` over `dst`; Rust panics (here:
`none`) unless the lengths agree. -/
def cloneFromSlice (dst src : List Nat) : Option (List Nat) :=
  if src.length = dst.length then some src else none

/-- `ChainedBeacon::message`: a `len + 8` zero buffer is split at `len`
(32 for round 1, 96 otherwise), the previous signature and the big-endian
round are copied in, and the result is hashed. `none` is the panic of
`clone_from_slice` on a length mismatch. -/
def ChainedBeacon.message? (b : ChainedBeacon) : Option (List Nat) :=
  let len := if b.round = 1 then 32 else 96
  let buf := List.replicate (len + 8) 0
  let signature_buf := buf.take len
  let round_buf := buf.drop len
  match cloneFromSlice signature_buf b.previous_signature,
        cloneFromSlice round_buf (be8 b.round) with
  | some sb, some rb => some (sha256 (sb ++ rb))
  | _, _ => none

/-- `UnchainedBeacon::message`: hash of the big-endian round number. -/
def UnchainedBeacon.message? (b : UnchainedBeacon) : Option (List Nat) :=
  some (sha256 (be8 b.round))

def ApiBeacon.message? : ApiBeacon → Option (List Nat)
  | .ChainedBeacon chained => chained.message?
  | .UnchainedBeacon unchained => unchained.message?

/-! ### BLS signature layer (`bls_signatures.rs`) -/

/-- Domain tag used for G2 placement: `DOMAIN` in `bls_signatures.rs`. -/
def G2_DOMAIN : String := "BLS_SIG_BLS12381G2_XMD:SHA-256_SSWU_RO_NUL_"

/-- Modelled from the spec: the G1 domain-tag constant referenced by
`ApiBeacon::dst` is not present under `src/` (the snapshot of
`bls_signatures.rs` predates it); the spec gives its value as
`BLS_SIG_BLS12381G1_XMD:SHA-256_SSWU_RO_NUL_`. -/
def G1_DOMAIN : String := "BLS_SIG_BLS12381G1_XMD:SHA-256_SSWU_RO_NUL_"

/-- `ApiBeacon::dst`: the hash-to-curve domain separation tag, selected per
chain: the G1 tag for RFC 9380 schemes placed on G1, the G2 tag otherwise. -/
def ApiBeacon.dst (_ : ApiBeacon) (info : ChainInfo) : String :=
  if info.is_rfc9380 && strContains info.scheme_id "g1" then G1_DOMAIN
  else G2_DOMAIN

/-- Abstraction of the `ark-bls12-381` based verifiers: point deserialization,
hash-to-curve under the given domain tag, and the optimized pairing equality.
Arguments are domain tag, signature bytes, message hash, public key bytes. -/
structure BlsOracle where
  verify_g1_on_g2 : String → List Nat → List Nat → List Nat → Except String Bool
  verify_g2_on_g1 : String → List Nat → List Nat → List Nat → Except String Bool

/-- `bls_signatures::verify`: dispatches on the signature length (48 bytes
means the signature lives on G1), as in the source. The domain-tag argument
follows the spec's per-call domain selection. -/
def blsVerify (o : BlsOracle) (dst : String) (signature hash public_key : List Nat) :
    Except String Bool :=
  if signature.length = 48 then o.verify_g1_on_g2 dst signature hash public_key
  else o.verify_g2_on_g1 dst signature hash public_key

/-! ### Beacon verification (`ApiBeacon::verify`) -/

/-- Outcome of a Rust call that may return `Ok`, return `Err`, or panic. -/
inductive VerifyResult where
  | ok (b : Bool)
  | err (e : String)
  | panicked
deriving DecidableEq, Repr

/-- `ApiBeacon::verify`: scheme-compatibility gate, then BLS verification of
the signing message, then the SHA-256 randomness check; the `Ok` result is the
conjunction of the two checks. -/
def ApiBeacon.verify (o : BlsOracle) (b : ApiBeacon) (info : ChainInfo) : VerifyResult :=
  if b.is_unchained != info.is_unchained
      || (b.is_g1 && !(strContains info.scheme_id "g1")) then
    .ok false
  else
    match b.message? with
    | none => .panicked
    | some msg =>
      match blsVerify o (b.dst info) b.signature msg info.public_key with
      | .error e => .err e
      | .ok signature_verify =>
          .ok (signature_verify && (sha256 b.signature == b.randomness))

structure RandomnessBeacon where
  beacon : ApiBeacon
  time : Nat
deriving DecidableEq, Repr

/-- `RandomnessBeacon::verify` delegates to the wrapped `ApiBeacon`. -/
def RandomnessBeacon.verify (o : BlsOracle) (rb : RandomnessBeacon) (info : ChainInfo) :
    VerifyResult :=
  rb.beacon.verify o info

/-! ### Concrete fixtures for witnesses and counterexamples -/

/-- Oracle whose pairing checks always succeed. -/
def trueOracle : BlsOracle :=
  ⟨fun _ _ _ _ => .ok true, fun _ _ _ _ => .ok true⟩

/-- Oracle whose point deserialization always fails, as `g1_from_variable`
does on byte strings that are not valid compressed points. -/
def errOracle : BlsOracle :=
  ⟨fun _ _ _ _ => .error "deserialization failed",
   fun _ _ _ _ => .error "deserialization failed"⟩

def exChainedInfo : ChainInfo :=
  { public_key := [], period := 30, genesis_time := 1595431050, hash := [],
    group_hash := [], scheme_id := "pedersen-bls-chained",
    metadata := ⟨"default"⟩ }

def exUnchainedInfo : ChainInfo :=
  { public_key := [], period := 3, genesis_time := 1651677099, hash := [],
    group_hash := [], scheme_id := "pedersen-bls-unchained",
    metadata := ⟨"testnet-unchained-3s"⟩ }

def exG1Info : ChainInfo :=
  { public_key := [], period := 3, genesis_time := 1677685200, hash := [],
    group_hash := [], scheme_id := "bls-unchained-on-g1",
    metadata := ⟨"fastnet"⟩ }

def exG1RfcInfo : ChainInfo :=
  { public_key := [], period := 3, genesis_time := 1677685200, hash := [],
    group_hash := [], scheme_id := "bls-unchained-g1-rfc9380",
    metadata := ⟨"quicknet"⟩ }

def exSig96 : List Nat := List.replicate 96 1

def exUnchainedBeacon : ApiBeacon :=
  .UnchainedBeacon ⟨1000000, sha256 exSig96, exSig96⟩

/-- A chained beacon carrying a 48-byte signature (parseable from well-formed
JSON); its previous signature has the expected 96 bytes. -/
def exChained48 : ApiBeacon :=
  .ChainedBeacon ⟨1000000, List.replicate 32 0, List.replicate 48 0, List.replicate 96 0⟩

/-! ### Shared helper lemmas -/

/-- For a previous signature of the expected length, `ChainedBeacon::message`
is the hash of the previous signature followed by the big-endian round. -/
theorem chained_message_spec (b : ChainedBeacon)
    (h : b.previous_signature.length = (if b.round = 1 then 32 else 96)) :
    b.message? = some (sha256 (b.previous_signature ++ be8 b.round)) := by
  have h8 : (be8 b.round).length = 8 := by simp [be8]
  unfold ChainedBeacon.message?
  simp only [cloneFromSlice, List.length_take, List.length_replicate,
    List.length_drop, h8, h]
  rw [if_pos (by omega), if_pos (by omega)]

/-- The scheme-compatibility gate of `ApiBeacon::verify`, reduced. -/
theorem verify_gate_false (o : BlsOracle) (b : ApiBeacon) (info : ChainInfo)
    (hplace : (b.is_unchained != info.is_unchained) = false)
    (hg1 : (b.is_g1 && !(strContains info.scheme_id "g1")) = false) :
    b.verify o info =
      match b.message? with
      | none => .panicked
      | some msg =>
        match blsVerify o (b.dst info) b.signature msg info.public_key with
        | .error e => .err e
        | .ok signature_verify =>
            .ok (signature_verify && (sha256 b.signature == b.randomness)) := by
  unfold ApiBeacon.verify
  rw [hplace, hg1]
  rfl

/-! ### Claims about verification -/

/-- C1: for every beacon and chain info whose scheme placement agrees,
`verify` returns `Ok(true)` iff the BLS check on the computed signing message
passes and SHA-256 of the signature equals the randomness field; the `Ok`
result is the conjunction of the two checks. `RandomnessBeacon::verify`
delegates to `ApiBeacon::verify`. -/
theorem claim_C1_verify_iff (o : BlsOracle) (b : ApiBeacon) (info : ChainInfo)
    (msg : List Nat) (t : Nat)
    (hplace : (b.is_unchained != info.is_unchained) = false)
    (hg1 : (b.is_g1 && !(strContains info.scheme_id "g1")) = false)
    (hmsg : b.message? = some msg) :
    (b.verify o info = .ok true ↔
      (blsVerify o (b.dst info) b.signature msg info.public_key = .ok true ∧
       sha256 b.signature = b.randomness)) ∧
    (∀ sv, blsVerify o (b.dst info) b.signature msg info.public_key = .ok sv →
      b.verify o info = .ok (sv && (sha256 b.signature == b.randomness))) ∧
    RandomnessBeacon.verify o ⟨b, t⟩ info = b.verify o info := by
  have hred : b.verify o info =
      match blsVerify o (b.dst info) b.signature msg info.public_key with
      | .error e => .err e
      | .ok signature_verify =>
          .ok (signature_verify && (sha256 b.signature == b.randomness)) := by
    rw [verify_gate_false o b info hplace hg1, hmsg]
  refine ⟨?_, ?_, rfl⟩
  · rw [hred]
    cases hbls : blsVerify o (b.dst info) b.signature msg info.public_key with
    | error e => simp
    | ok sv => simp [Bool.and_eq_true, beq_iff_eq]
  · intro sv hbls
    rw [hred, hbls]

/-- C1 witness: a concrete unchained beacon against a matching unchained
chain under the always-accepting oracle. -/
theorem claim_C1_verify_iff_witness :
    ((ApiBeacon.is_unchained exUnchainedBeacon != ChainInfo.is_unchained exUnchainedInfo) = false) ∧
    ((ApiBeacon.is_g1 exUnchainedBeacon &&
      !(strContains exUnchainedInfo.scheme_id "g1")) = false) ∧
    (ApiBeacon.message? exUnchainedBeacon = some (sha256 (be8 1000000))) ∧
    ((ApiBeacon.verify trueOracle exUnchainedBeacon exUnchainedInfo = .ok true ↔
      (blsVerify trueOracle (ApiBeacon.dst exUnchainedBeacon exUnchainedInfo)
        (ApiBeacon.signature exUnchainedBeacon) (sha256 (be8 1000000))
        exUnchainedInfo.public_key = .ok true ∧
       sha256 (ApiBeacon.signature exUnchainedBeacon) =
         ApiBeacon.randomness exUnchainedBeacon)) ∧
     (∀ sv, blsVerify trueOracle (ApiBeacon.dst exUnchainedBeacon exUnchainedInfo)
        (ApiBeacon.signature exUnchainedBeacon) (sha256 (be8 1000000))
        exUnchainedInfo.public_key = .ok sv →
       ApiBeacon.verify trueOracle exUnchainedBeacon exUnchainedInfo =
         .ok (sv && (sha256 (ApiBeacon.signature exUnchainedBeacon) ==
           ApiBeacon.randomness exUnchainedBeacon))) ∧
     RandomnessBeacon.verify trueOracle ⟨exUnchainedBeacon, 0⟩ exUnchainedInfo =
       ApiBeacon.verify trueOracle exUnchainedBeacon exUnchainedInfo) :=
  ⟨by decide, by decide, rfl,
   claim_C1_verify_iff trueOracle exUnchainedBeacon exUnchainedInfo
     (sha256 (be8 1000000)) 0 (by decide) (by decide) rfl⟩

/-- C2: the signing message is SHA-256(previousSignature ∥ round.be_u64) for
chained beacons (previous signature 32 bytes at round 1, 96 bytes otherwise)
and SHA-256(round.be_u64) for unchained beacons. -/
theorem claim_C2_signing_message (r : Nat) (rand sig prev rand' sig' : List Nat)
    (h : prev.length = (if r = 1 then 32 else 96)) :
    ChainedBeacon.message? ⟨r, rand, sig, prev⟩ = some (sha256 (prev ++ be8 r)) ∧
    UnchainedBeacon.message? ⟨r, rand', sig'⟩ = some (sha256 (be8 r)) :=
  ⟨chained_message_spec ⟨r, rand, sig, prev⟩ h, rfl⟩

/-- C2 witness: round 1 with a 32-byte previous signature. -/
theorem claim_C2_signing_message_witness :
    ((List.replicate 32 7).length = (if 1 = 1 then 32 else 96)) ∧
    (ChainedBeacon.message? ⟨1, [], [], List.replicate 32 7⟩ =
      some (sha256 (List.replicate 32 7 ++ be8 1)) ∧
     UnchainedBeacon.message? ⟨1, [], []⟩ = some (sha256 (be8 1))) :=
  ⟨by decide, claim_C2_signing_message 1 [] [] (List.replicate 32 7) [] [] (by decide)⟩

/-- C3: the hash-to-curve domain separation tag is the G1 tag exactly when
the scheme id contains both "rfc9380" and "g1", and the G2 tag in every other
case; the pre-RFC9380 G1 scheme and the RFC9380 G1 scheme therefore hash
under different tags. -/
theorem claim_C3_dst_selection (b : ApiBeacon) (i i' : ChainInfo)
    (hg : strContains i.scheme_id "g1" = true)
    (hr : strContains i.scheme_id "rfc9380" = false)
    (hg' : strContains i'.scheme_id "g1" = true)
    (hr' : strContains i'.scheme_id "rfc9380" = true) :
    (∀ j : ChainInfo, b.dst j = G1_DOMAIN ↔
      (strContains j.scheme_id "rfc9380" = true ∧ strContains j.scheme_id "g1" = true)) ∧
    (∀ j : ChainInfo,
      ¬(strContains j.scheme_id "rfc9380" = true ∧ strContains j.scheme_id "g1" = true) →
      b.dst j = G2_DOMAIN) ∧
    b.dst i ≠ b.dst i' := by
  have hne : G1_DOMAIN ≠ G2_DOMAIN := by decide
  have hne' : G2_DOMAIN ≠ G1_DOMAIN := Ne.symm hne
  have hdst : ∀ j : ChainInfo, b.dst j =
      if strContains j.scheme_id "rfc9380" && strContains j.scheme_id "g1"
      then G1_DOMAIN else G2_DOMAIN := by
    intro j; rfl
  refine ⟨?_, ?_, ?_⟩
  · intro j
    rw [hdst j]
    rcases h9 : strContains j.scheme_id "rfc9380" <;>
      rcases hg1 : strContains j.scheme_id "g1" <;>
      simp [hne, hne']
  · intro j hj
    rw [hdst j]
    rcases h9 : strContains j.scheme_id "rfc9380" <;>
      rcases hg1 : strContains j.scheme_id "g1" <;> simp_all
  · rw [hdst i, hdst i', hg, hr, hg', hr']
    simpa using hne'

/-- C3 witness: the fastnet (pre-RFC9380, G1) and quicknet-style (RFC9380,
G1) chain descriptors. -/
theorem claim_C3_dst_selection_witness :
    (strContains exG1Info.scheme_id "g1" = true) ∧
    (strContains exG1Info.scheme_id "rfc9380" = false) ∧
    (strContains exG1RfcInfo.scheme_id "g1" = true) ∧
    (strContains exG1RfcInfo.scheme_id "rfc9380" = true) ∧
    ((∀ j : ChainInfo, ApiBeacon.dst exUnchainedBeacon j = G1_DOMAIN ↔
       (strContains j.scheme_id "rfc9380" = true ∧ strContains j.scheme_id "g1" = true)) ∧
     (∀ j : ChainInfo,
       ¬(strContains j.scheme_id "rfc9380" = true ∧ strContains j.scheme_id "g1" = true) →
       ApiBeacon.dst exUnchainedBeacon j = G2_DOMAIN) ∧
     ApiBeacon.dst exUnchainedBeacon exG1Info ≠ ApiBeacon.dst exUnchainedBeacon exG1RfcInfo) :=
  ⟨by decide, by decide, by decide, by decide,
   claim_C3_dst_selection exUnchainedBeacon exG1Info exG1RfcInfo
     (by decide) (by decide) (by decide) (by decide)⟩

/-- C4 as amended: a scheme-placement mismatch — differing chainedness, or an
unchained beacon with a 48-byte (G1-placed) signature against a chain whose
scheme id lacks "g1" — yields `Ok(false)`, for any behaviour of the
cryptographic primitives; and whenever `verify` returns an error, that error
is exactly the error returned by the BLS primitive layer. -/
theorem claim_C4_scheme_mismatch (o : BlsOracle) (b b₂ : ApiBeacon)
    (info info₂ : ChainInfo) (msg₂ : List Nat) (e : String)
    (h : b.is_unchained ≠ info.is_unchained ∨
      (b.is_g1 = true ∧ strContains info.scheme_id "g1" = false))
    (hmsg₂ : b₂.message? = some msg₂)
    (herr : b₂.verify o info₂ = .err e) :
    b.verify o info = .ok false ∧
    blsVerify o (b₂.dst info₂) b₂.signature msg₂ info₂.public_key = .error e := by
  constructor
  · have hgate : (b.is_unchained != info.is_unchained
        || (b.is_g1 && !(strContains info.scheme_id "g1"))) = true := by
      rcases h with h | ⟨h1, h2⟩
      · simp [bne_iff_ne, h]
      · simp [h1, h2]
    unfold ApiBeacon.verify
    rw [hgate]
    rfl
  · by_cases hgate₂ : (b₂.is_unchained != info₂.is_unchained
        || (b₂.is_g1 && !(strContains info₂.scheme_id "g1"))) = true
    · unfold ApiBeacon.verify at herr
      rw [hgate₂] at herr
      simp at herr
    · have hsplit : (b₂.is_unchained != info₂.is_unchained) = false ∧
          (b₂.is_g1 && !(strContains info₂.scheme_id "g1")) = false := by
        revert hgate₂
        cases hb : (b₂.is_unchained != info₂.is_unchained) <;>
          cases hc : (b₂.is_g1 && !(strContains info₂.scheme_id "g1")) <;> simp
      have hred : b₂.verify o info₂ =
          match blsVerify o (b₂.dst info₂) b₂.signature msg₂ info₂.public_key with
          | .error e' => .err e'
          | .ok signature_verify =>
              .ok (signature_verify && (sha256 b₂.signature == b₂.randomness)) := by
        rw [verify_gate_false o b₂ info₂ hsplit.1 hsplit.2, hmsg₂]
      rw [hred] at herr
      cases hbls : blsVerify o (b₂.dst info₂) b₂.signature msg₂ info₂.public_key with
      | error e' => rw [hbls] at herr; simp at herr; rw [herr]
      | ok sv => rw [hbls] at herr; simp at herr

/-- A chained beacon (round 2, so the expected previous-signature length is
96) used in witnesses. -/
def exChainedBeacon : ApiBeacon :=
  .ChainedBeacon ⟨2, List.replicate 32 0, List.replicate 96 0, List.replicate 96 0⟩

/-- C4 witness: a chained beacon against an unchained chain yields
`Ok(false)`; an unchained beacon whose primitives fail yields exactly the
primitive error. -/
theorem claim_C4_scheme_mismatch_witness :
    (ApiBeacon.is_unchained exChainedBeacon ≠ ChainInfo.is_unchained exUnchainedInfo ∨
      (ApiBeacon.is_g1 exChainedBeacon = true ∧
       strContains exUnchainedInfo.scheme_id "g1" = false)) ∧
    (ApiBeacon.message? exUnchainedBeacon = some (sha256 (be8 1000000))) ∧
    (ApiBeacon.verify errOracle exUnchainedBeacon exUnchainedInfo =
      .err "deserialization failed") ∧
    (ApiBeacon.verify errOracle exChainedBeacon exUnchainedInfo = .ok false ∧
     blsVerify errOracle (ApiBeacon.dst exUnchainedBeacon exUnchainedInfo)
       (ApiBeacon.signature exUnchainedBeacon) (sha256 (be8 1000000))
       exUnchainedInfo.public_key = .error "deserialization failed") :=
  ⟨by decide, rfl, by decide,
   claim_C4_scheme_mismatch errOracle exChainedBeacon exUnchainedBeacon
     exUnchainedInfo exUnchainedInfo (sha256 (be8 1000000)) "deserialization failed"
     (by decide) rfl (by decide)⟩

/-- C4 counterexample to the claim as stated: a *chained* beacon with a
48-byte signature against a chained chain whose scheme id lacks "g1" is not
caught by the gate (`is_g1` is false for chained beacons); verification
proceeds into the cryptographic layer, which on a 48-byte byte string that is
not a valid compressed G1 point returns an error — not `Ok(false)`. -/
theorem claim_C4_counterexample :
    (ApiBeacon.signature exChained48).length = 48 ∧
    strContains exChainedInfo.scheme_id "g1" = false ∧
    ApiBeacon.verify errOracle exChained48 exChainedInfo =
      .err "deserialization failed" ∧
    ApiBeacon.verify errOracle exChained48 exChainedInfo ≠ .ok false := by
  decide

/-- Mirror of `chained_message_spec`: a previous signature of unexpected
length makes `ChainedBeacon::message` panic. -/
theorem chained_message_none (b : ChainedBeacon)
    (h : b.previous_signature.length ≠ (if b.round = 1 then 32 else 96)) :
    b.message? = none := by
  unfold ChainedBeacon.message? cloneFromSlice
  simp only [List.length_take, List.length_replicate]
  have hmin : min (if b.round = 1 then 32 else 96) ((if b.round = 1 then 32 else 96) + 8) =
      (if b.round = 1 then 32 else 96) := by omega
  rw [hmin, if_neg h]

/-- C10: a chained beacon whose previous signature does not have the expected
length (32 bytes at round 1, 96 otherwise) makes `ChainedBeacon::message` —
and hence `verify` against a chained chain — panic rather than return
`Ok(false)` or an error; with the expected length, `message` is total. -/
theorem claim_C10_chained_panic (o : BlsOracle) (b : ChainedBeacon) (info : ChainInfo)
    (hlen : b.previous_signature.length ≠ (if b.round = 1 then 32 else 96))
    (hinfo : info.is_unchained = false) :
    b.message? = none ∧
    ApiBeacon.verify o (.ChainedBeacon b) info = .panicked ∧
    (∀ b' : ChainedBeacon,
      b'.previous_signature.length = (if b'.round = 1 then 32 else 96) →
      b'.message? = some (sha256 (b'.previous_signature ++ be8 b'.round))) := by
  have hmsg := chained_message_none b hlen
  refine ⟨hmsg, ?_, fun b' h' => chained_message_spec b' h'⟩
  have h1 : (ApiBeacon.is_unchained (.ChainedBeacon b) != info.is_unchained) = false := by
    simp [ApiBeacon.is_unchained, hinfo]
  have h2 : (ApiBeacon.is_g1 (.ChainedBeacon b) &&
      !(strContains info.scheme_id "g1")) = false := by
    simp [ApiBeacon.is_g1]
  rw [verify_gate_false o (.ChainedBeacon b) info h1 h2,
    show ApiBeacon.message? (.ChainedBeacon b) = b.message? from rfl, hmsg]

/-- C10 witness: a chained beacon at round 2 with an empty previous
signature, against the chained mainnet descriptor. -/
theorem claim_C10_chained_panic_witness :
    ((ChainedBeacon.previous_signature ⟨2, [], [], []⟩).length ≠
      (if ChainedBeacon.round ⟨2, [], [], []⟩ = 1 then 32 else 96)) ∧
    (ChainInfo.is_unchained exChainedInfo = false) ∧
    (ChainedBeacon.message? ⟨2, [], [], []⟩ = none ∧
     ApiBeacon.verify trueOracle (.ChainedBeacon ⟨2, [], [], []⟩) exChainedInfo = .panicked ∧
     (∀ b' : ChainedBeacon,
       b'.previous_signature.length = (if b'.round = 1 then 32 else 96) →
       b'.message? = some (sha256 (b'.previous_signature ++ be8 b'.round)))) :=
  ⟨by decide, by decide,
   claim_C10_chained_panic trueOracle ⟨2, [], [], []⟩ exChainedInfo (by decide) (by decide)⟩

/-! ### Round/time calculus (`drand_core` `beacon.rs` and `dee` `time.rs`) -/

/-- Rust `u64 as i64`: two's-complement reinterpretation. -/
def toI64 (n : Nat) : Int :=
  let m := n % 18446744073709551616
  if m < 9223372036854775808 then (m : Int) else (m : Int) - 18446744073709551616

/-- Rust `i64 as u64`: two's-complement reinterpretation. -/
def toU64 (i : Int) : Nat := (i % 18446744073709551616).toNat

/-- `ChainTimeInfo` (chain.rs): genesis and period only. -/
structure ChainTimeInfo where
  genesis_time : Nat
  period : Nat
deriving DecidableEq, Repr

/-- `RandomnessBeaconTime`: round, relative duration (seconds), absolute
time (unix seconds). -/
structure RBTime where
  round : Nat
  relative : Int
  absolute : Int
deriving DecidableEq, Repr

/-- `drand_core` `RandomnessBeaconTime::from_round`:
`absolute = genesis + (round - 1) * period`, `relative = absolute - now`.
(Round 0 would underflow the `u64` subtraction in Rust; every use in the
claims has `round ≥ 1`.) -/
def DrandCore.from_round (info : ChainTimeInfo) (round : Nat) (now : Int) : RBTime :=
  let genesis := toI64 info.genesis_time
  let absolute := genesis + toI64 ((round - 1) * info.period)
  { round := round, relative := absolute - now, absolute := absolute }

/-- `drand_core` `RandomnessBeaconTime::from_duration`:
`absolute = now + relative`,
`round = ((absolute - genesis) / period + 1) as u64` with truncating
division. -/
def DrandCore.from_duration (info : ChainTimeInfo) (relative now : Int) : RBTime :=
  let genesis := toI64 info.genesis_time
  let absolute := now + relative
  let round := toU64 (Int.tdiv (absolute - genesis) (toI64 info.period) + 1)
  { round := round, relative := relative, absolute := absolute }

/-- `drand_core` `RandomnessBeaconTime::from_datetime`:
`relative = absolute - now`,
`round = ((absolute - genesis) / period + 1) as u64`. -/
def DrandCore.from_datetime (info : ChainTimeInfo) (absolute now : Int) : RBTime :=
  let genesis := toI64 info.genesis_time
  let relative := absolute - now
  let round := toU64 (Int.tdiv (absolute - genesis) (toI64 info.period) + 1)
  { round := round, relative := relative, absolute := absolute }

/-- `dee` `RandomnessBeaconTime::from_round` (time.rs):
`absolute = genesis + round * period` — no `- 1`. -/
def DeeTime.from_round (info : ChainInfo) (round : Nat) (now : Int) : RBTime :=
  let genesis := toI64 info.genesis_time
  let absolute := genesis + toI64 (round * info.period)
  { round := round, relative := absolute - now, absolute := absolute }

/-- `dee` `RandomnessBeaconTime::from_duration` (time.rs):
`round = ((absolute - genesis) / period) as u64` — no `+ 1`. -/
def DeeTime.from_duration (info : ChainInfo) (relative now : Int) : RBTime :=
  let genesis := toI64 info.genesis_time
  let absolute := now + relative
  let round := toU64 (Int.tdiv (absolute - genesis) (toI64 info.period))
  { round := round, relative := relative, absolute := absolute }

/-- `dee` `RandomnessBeaconTime::from_datetime` (time.rs). -/
def DeeTime.from_datetime (info : ChainInfo) (absolute now : Int) : RBTime :=
  let genesis := toI64 info.genesis_time
  let relative := absolute - now
  let round := toU64 (Int.tdiv (absolute - genesis) (toI64 info.period))
  { round := round, relative := relative, absolute := absolute }

theorem toI64_of_lt (n : Nat) (h : n < 9223372036854775808) : toI64 n = (n : Int) := by
  unfold toI64
  rw [Nat.mod_eq_of_lt (by omega)]
  simp [h]

theorem toU64_of_bounds (i : Int) (h0 : 0 ≤ i) (h1 : i < 18446744073709551616) :
    toU64 i = i.toNat := by
  unfold toU64
  rw [Int.emod_eq_of_lt h0 h1]

/-- C5 as amended: `from_round` keeps the round and sets
`relative = absolute - now` in both implementations, but the two compute
different absolute times: `genesis + (r - 1) * period` in `drand_core`,
`genesis + r * period` in `dee`. -/
theorem claim_C5_from_round (g p r : Nat) (now : Int) (pk hs gh : List Nat)
    (sid : String) (md : ChainMetadata)
    (hp : 0 < p) (hr : 1 ≤ r) (hg : g < 9223372036854775808)
    (hc : (r - 1) * p < 9223372036854775808)
    (hd : r * p < 9223372036854775808) :
    (DrandCore.from_round ⟨g, p⟩ r now).round = r ∧
    (DrandCore.from_round ⟨g, p⟩ r now).absolute = (g : Int) + ((r - 1) * p : Nat) ∧
    (DrandCore.from_round ⟨g, p⟩ r now).relative =
      (DrandCore.from_round ⟨g, p⟩ r now).absolute - now ∧
    (DeeTime.from_round ⟨pk, p, g, hs, gh, sid, md⟩ r now).round = r ∧
    (DeeTime.from_round ⟨pk, p, g, hs, gh, sid, md⟩ r now).absolute =
      (g : Int) + (r * p : Nat) ∧
    (DeeTime.from_round ⟨pk, p, g, hs, gh, sid, md⟩ r now).relative =
      (DeeTime.from_round ⟨pk, p, g, hs, gh, sid, md⟩ r now).absolute - now := by
  simp only [DrandCore.from_round, DeeTime.from_round]
  rw [toI64_of_lt g hg, toI64_of_lt _ hc, toI64_of_lt _ hd]
  simp

/-- C5 witness: genesis 100, period 30, round 2, now 0. -/
theorem claim_C5_from_round_witness :
    (0 < 30 ∧ 1 ≤ 2 ∧ (100 : Nat) < 9223372036854775808 ∧
     (2 - 1) * 30 < 9223372036854775808 ∧ 2 * 30 < 9223372036854775808) ∧
    ((DrandCore.from_round ⟨100, 30⟩ 2 0).round = 2 ∧
     (DrandCore.from_round ⟨100, 30⟩ 2 0).absolute = (100 : Int) + ((2 - 1) * 30 : Nat) ∧
     (DrandCore.from_round ⟨100, 30⟩ 2 0).relative =
       (DrandCore.from_round ⟨100, 30⟩ 2 0).absolute - 0 ∧
     (DeeTime.from_round ⟨[], 30, 100, [], [], "pedersen-bls-chained", ⟨"default"⟩⟩ 2 0).round = 2 ∧
     (DeeTime.from_round ⟨[], 30, 100, [], [], "pedersen-bls-chained", ⟨"default"⟩⟩ 2 0).absolute =
       (100 : Int) + (2 * 30 : Nat) ∧
     (DeeTime.from_round ⟨[], 30, 100, [], [], "pedersen-bls-chained", ⟨"default"⟩⟩ 2 0).relative =
       (DeeTime.from_round ⟨[], 30, 100, [], [], "pedersen-bls-chained", ⟨"default"⟩⟩ 2 0).absolute - 0) :=
  ⟨⟨by decide, by decide, by decide, by decide, by decide⟩,
   claim_C5_from_round 100 30 2 0 [] [] [] "pedersen-bls-chained" ⟨"default"⟩
     (by decide) (by decide) (by decide) (by decide) (by decide)⟩

/-- C5 counterexample to the claim as stated: the `drand_core` `from_round`
does not return `genesis + round * period`; at genesis 100, period 30,
round 2 it returns 130, not 160. -/
theorem claim_C5_counterexample :
    (DrandCore.from_round ⟨100, 30⟩ 2 0).absolute ≠ (100 : Int) + 2 * 30 ∧
    (DrandCore.from_round ⟨100, 30⟩ 2 0).absolute = 130 := by
  decide

/-- C6 as amended: for a round expression resolving to absolute time `t`
(`t = now + relative` for the duration form), the `dee` implementation
computes `(t - genesis) / period` by truncating integer division with no
further offset, while the `drand_core` implementation adds 1. -/
theorem claim_C6_round_from_time (g p : Nat) (t now rel : Int) (pk hs gh : List Nat)
    (sid : String) (md : ChainMetadata)
    (hp : 0 < p) (hp63 : p < 9223372036854775808) (hg : g < 9223372036854775808)
    (ht : (g : Int) ≤ t) (hb : Int.tdiv (t - (g : Int)) (p : Int) + 1 < 9223372036854775808)
    (ht' : (g : Int) ≤ now + rel)
    (hb' : Int.tdiv (now + rel - (g : Int)) (p : Int) + 1 < 9223372036854775808) :
    (DrandCore.from_datetime ⟨g, p⟩ t now).round =
      (Int.tdiv (t - (g : Int)) (p : Int) + 1).toNat ∧
    (DeeTime.from_datetime ⟨pk, p, g, hs, gh, sid, md⟩ t now).round =
      (Int.tdiv (t - (g : Int)) (p : Int)).toNat ∧
    (DrandCore.from_duration ⟨g, p⟩ rel now).round =
      (Int.tdiv (now + rel - (g : Int)) (p : Int) + 1).toNat ∧
    (DeeTime.from_duration ⟨pk, p, g, hs, gh, sid, md⟩ rel now).round =
      (Int.tdiv (now + rel - (g : Int)) (p : Int)).toNat ∧
    (DrandCore.from_datetime ⟨g, p⟩ t now).absolute = t ∧
    (DeeTime.from_duration ⟨pk, p, g, hs, gh, sid, md⟩ rel now).absolute = now + rel := by
  have hq : 0 ≤ Int.tdiv (t - (g : Int)) (p : Int) :=
    Int.tdiv_nonneg (by omega) (by positivity)
  have hq' : 0 ≤ Int.tdiv (now + rel - (g : Int)) (p : Int) :=
    Int.tdiv_nonneg (by omega) (by positivity)
  simp only [DrandCore.from_datetime, DrandCore.from_duration,
    DeeTime.from_datetime, DeeTime.from_duration]
  rw [toI64_of_lt g hg, toI64_of_lt p hp63]
  refine ⟨?_, ?_, ?_, ?_, ?_, ?_⟩ <;>
    first
      | exact toU64_of_bounds _ (by omega) (by omega)
      | rfl
      | trivial

/-- C6 witness: genesis 0, period 3, t = 7, now = 2, rel = 5. -/
theorem claim_C6_round_from_time_witness :
    ((0 : Nat) < 3 ∧ ((7 : Int) - ((0 : Nat) : Int)) ≥ 0) ∧
    ((DrandCore.from_datetime ⟨0, 3⟩ 7 2).round =
      (Int.tdiv ((7 : Int) - ((0 : Nat) : Int)) ((3 : Nat) : Int) + 1).toNat ∧
     (DeeTime.from_datetime ⟨[], 3, 0, [], [], "pedersen-bls-unchained", ⟨"default"⟩⟩ 7 2).round =
      (Int.tdiv ((7 : Int) - ((0 : Nat) : Int)) ((3 : Nat) : Int)).toNat ∧
     (DrandCore.from_duration ⟨0, 3⟩ 5 2).round =
      (Int.tdiv ((2 : Int) + 5 - ((0 : Nat) : Int)) ((3 : Nat) : Int) + 1).toNat ∧
     (DeeTime.from_duration ⟨[], 3, 0, [], [], "pedersen-bls-unchained", ⟨"default"⟩⟩ 5 2).round =
      (Int.tdiv ((2 : Int) + 5 - ((0 : Nat) : Int)) ((3 : Nat) : Int)).toNat ∧
     (DrandCore.from_datetime ⟨0, 3⟩ 7 2).absolute = 7 ∧
     (DeeTime.from_duration ⟨[], 3, 0, [], [], "pedersen-bls-unchained", ⟨"default"⟩⟩ 5 2).absolute =
       (2 : Int) + 5) :=
  ⟨⟨by decide, by decide⟩,
   claim_C6_round_from_time 0 3 7 2 5 [] [] [] "pedersen-bls-unchained" ⟨"default"⟩
     (by decide) (by decide) (by decide) (by decide) (by decide) (by decide) (by decide)⟩

/-- C6 counterexample to the claim as stated: in `drand_core`, a timestamp
resolving to `t = 3` on a chain with genesis 0 and period 3 yields round 2,
not `(3 - 0) / 3 = 1`. -/
theorem claim_C6_counterexample :
    (DrandCore.from_datetime ⟨0, 3⟩ 3 0).round ≠ (Int.tdiv ((3 : Int) - 0) 3).toNat ∧
    (DrandCore.from_datetime ⟨0, 3⟩ 3 0).round = 2 := by
  decide

/-! ### Round-expression parsing (`RandomnessBeaconTime::new`) -/

/-- Digits-only decimal parse (no sign), rejecting the empty string. -/
def digitsToNat? (cs : List Char) : Option Nat :=
  if cs.isEmpty then none
  else if cs.all Char.isDigit then
    some (cs.foldl (fun a c => a * 10 + (c.toNat - 48)) 0)
  else none

/-- Rust `str::parse::<u64>`: optional `+` sign, decimal digits, value below
2^64. -/
def parseU64? (s : String) : Option Nat :=
  let cs := match s.data with
    | '+' :: rest => rest
    | l => l
  match digitsToNat? cs with
  | some n => if n < 18446744073709551616 then some n else none
  | none => none

/-- Rust `str::parse::<i64>`: optional sign, decimal digits, two's-complement
i64 range. -/
def parseI64? (s : String) : Option Int :=
  match s.data with
  | '-' :: rest =>
      match digitsToNat? rest with
      | some n => if n ≤ 9223372036854775808 then some (-(n : Int)) else none
      | none => none
  | '+' :: rest =>
      match digitsToNat? rest with
      | some n => if n < 9223372036854775808 then some (n : Int) else none
      | none => none
  | l =>
      match digitsToNat? l with
      | some n => if n < 9223372036854775808 then some (n : Int) else none
      | none => none

/-- Outcome of `parse_duration`: a duration in seconds, a `DurationParse`
error, or a panic (empty input underflows `duration.len() - 1`). -/
inductive DurationOut where
  | ok (seconds : Int)
  | err
  | panicked
deriving DecidableEq, Repr

/-- `drand_core` `RandomnessBeaconTime::parse_duration`: all but the last
character parse as `i64`, the last character selects the unit `s`/`m`/`h`/`d`;
any other last character is a `DurationParse` error. -/
def DrandCore.parse_duration (s : String) : DurationOut :=
  if s.length = 0 then .panicked
  else
    match parseI64? (String.mk (s.data.take (s.length - 1))) with
    | none => .err
    | some principal =>
      match s.data.getLast? with
      | some 's' => .ok principal
      | some 'm' => .ok (principal * 60)
      | some 'h' => .ok (principal * 3600)
      | some 'd' => .ok (principal * 86400)
      | _ => .err

/-- Outcome of `RandomnessBeaconTime::new`: a beacon time, or a panic. -/
inductive TimeOut where
  | ok (t : RBTime)
  | panicked
deriving DecidableEq, Repr

/-- `drand_core` `RandomnessBeaconTime::new`: matches on the triple of parse
results (integer round, duration, RFC 3339 datetime); any other combination —
including the all-fail one — hits `unreachable!()`, i.e. panics. The RFC 3339
parser is the external `time` crate, abstracted as `rfc`. -/
def DrandCore.new (rfc : String → Option Int) (info : ChainTimeInfo) (now : Int)
    (round : String) : TimeOut :=
  match parseU64? round, DrandCore.parse_duration round, rfc round with
  | some r, .err, none => .ok (DrandCore.from_round info r now)
  | none, .ok relative, none => .ok (DrandCore.from_duration info relative now)
  | none, .err, some absolute => .ok (DrandCore.from_datetime info absolute now)
  | _, _, _ => .panicked

/-- C7: on an input none of the three parsers accept (such as `"xyz"`), the
code reaches `unreachable!()` and panics rather than returning a
`DurationParse`/`Parsing` error. Any RFC 3339 parser rejects `"xyz"`. -/
theorem claim_C7_unparseable_panics (rfc : String → Option Int)
    (info : ChainTimeInfo) (now : Int) (h : rfc "xyz" = none) :
    parseU64? "xyz" = none ∧
    DrandCore.parse_duration "xyz" = .err ∧
    DrandCore.new rfc info now "xyz" = .panicked := by
  refine ⟨by decide, by decide, ?_⟩
  unfold DrandCore.new
  rw [h, show parseU64? "xyz" = none from by decide,
    show DrandCore.parse_duration "xyz" = DurationOut.err from by decide]

/-- C7 witness: the always-failing RFC 3339 parser stands in for the `time`
crate on the input `"xyz"`. -/
theorem claim_C7_unparseable_panics_witness :
    ((fun _ : String => (none : Option Int)) "xyz" = none) ∧
    (parseU64? "xyz" = none ∧
     DrandCore.parse_duration "xyz" = .err ∧
     DrandCore.new (fun _ => none) ⟨0, 3⟩ 0 "xyz" = .panicked) :=
  ⟨rfl, claim_C7_unparseable_panics (fun _ => none) ⟨0, 3⟩ 0 rfl⟩

/-! ### Verifying HTTP client: chain-info caching (`http_client.rs`) -/

/-- `ChainVerification`: optional pinned hash / public key; an absent field
accepts anything. -/
structure ChainVerification where
  hash : Option (List Nat)
  public_key : Option (List Nat)
deriving DecidableEq, Repr

def ChainVerification.verify (v : ChainVerification) (info : ChainInfo) : Bool :=
  let ok_hash := match v.hash with
    | some h => info.hash == h
    | none => true
  let ok_public_key := match v.public_key with
    | some pk => info.public_key == pk
    | none => true
  ok_hash && ok_public_key

structure ChainOptions where
  is_beacon_verification : Bool
  is_cache : Bool
  chain_verification : ChainVerification
deriving DecidableEq, Repr

def ChainOptions.verify (o : ChainOptions) (info : ChainInfo) : Bool :=
  o.chain_verification.verify info

inductive ClientError where
  | invalidChainInfo
  | failedToRetrieveChainInfo (message : String)
  | parsing
  | requestFailed (e : String)
deriving DecidableEq, Repr

/-- Mutable client state: the mutex-guarded cached chain info, plus a fetch
counter recording how many network requests have been issued. -/
structure ClientState where
  cached_chain_info : Option ChainInfo
  fetch_count : Nat
deriving DecidableEq, Repr

/-- `HttpClient::chain_info_no_cache`: always issues a network fetch (the
server is modelled as a function of the fetch index, covering transport
errors, non-2xx responses and parse failures via `Except`), then applies
`options.verify`; a rejected info is `InvalidChainInfo`. -/
def HttpClient.chain_info_no_cache (server : Nat → Except ClientError ChainInfo)
    (options : ChainOptions) (s : ClientState) :
    Except ClientError ChainInfo × ClientState :=
  let response := server s.fetch_count
  let s' := { s with fetch_count := s.fetch_count + 1 }
  match response with
  | .error e => (.error e, s')
  | .ok info =>
      if options.verify info then (.ok info, s')
      else (.error .invalidChainInfo, s')

/-- `HttpClient::chain_info`: with caching, return the memoized value or
fetch-and-memoize; without caching, fetch every call. -/
def HttpClient.chain_info (server : Nat → Except ClientError ChainInfo)
    (options : ChainOptions) (s : ClientState) :
    Except ClientError ChainInfo × ClientState :=
  if options.is_cache then
    match s.cached_chain_info with
    | some info => (.ok info, s)
    | none =>
        match HttpClient.chain_info_no_cache server options s with
        | (.ok info, s') => (.ok info, { s' with cached_chain_info := some info })
        | (.error e, s') => (.error e, s')
  else HttpClient.chain_info_no_cache server options s

/-- State after `n` further `chain_info` calls. -/
def HttpClient.chain_info_iter (server : Nat → Except ClientError ChainInfo)
    (options : ChainOptions) : Nat → ClientState → ClientState
  | 0, s => s
  | n + 1, s =>
      HttpClient.chain_info_iter server options n
        (HttpClient.chain_info server options s).2

theorem chain_info_no_cache_count (server : Nat → Except ClientError ChainInfo)
    (options : ChainOptions) (s : ClientState) :
    (HttpClient.chain_info_no_cache server options s).2.fetch_count =
      s.fetch_count + 1 := by
  unfold HttpClient.chain_info_no_cache
  cases server s.fetch_count with
  | error e => rfl
  | ok info =>
      by_cases hv : options.verify info = true <;> simp [hv]

theorem chain_info_cached_fixed (server : Nat → Except ClientError ChainInfo)
    (options : ChainOptions) (s : ClientState) (info : ChainInfo)
    (hc : options.is_cache = true) (hs : s.cached_chain_info = some info) :
    HttpClient.chain_info server options s = (.ok info, s) := by
  unfold HttpClient.chain_info
  rw [hc, hs]
  rfl

/-- C8: with caching, a first successful `chain_info` call memoizes the
value (one fetch if the cache was empty) and every one of the `n` subsequent
calls returns the same info against an unchanged state — no further fetch;
without caching, `n` calls issue `n` fetches. -/
theorem claim_C8_chain_info_cache (server servN : Nat → Except ClientError ChainInfo)
    (optsC optsN : ChainOptions) (s t : ClientState) (info : ChainInfo)
    (s' : ClientState) (n : Nat)
    (hC : optsC.is_cache = true)
    (h1 : HttpClient.chain_info server optsC s = (.ok info, s'))
    (hN : optsN.is_cache = false) :
    s'.cached_chain_info = some info ∧
    (s.cached_chain_info = none → s'.fetch_count = s.fetch_count + 1) ∧
    HttpClient.chain_info server optsC s' = (.ok info, s') ∧
    HttpClient.chain_info_iter server optsC n s' = s' ∧
    (HttpClient.chain_info_iter servN optsN n t).fetch_count = t.fetch_count + n := by
  have hmain : s'.cached_chain_info = some info ∧
      (s.cached_chain_info = none → s'.fetch_count = s.fetch_count + 1) := by
    unfold HttpClient.chain_info at h1
    rw [hC] at h1
    simp only [if_true] at h1
    cases hcache : s.cached_chain_info with
    | some i =>
        rw [hcache] at h1
        injection h1 with ha hb
        injection ha with ha
        subst hb
        exact ⟨by rw [hcache, ha], by intro hx; exact Option.noConfusion hx⟩
    | none =>
        rw [hcache] at h1
        unfold HttpClient.chain_info_no_cache at h1
        cases hsrv : server s.fetch_count with
        | error e => rw [hsrv] at h1; simp at h1
        | ok i =>
            rw [hsrv] at h1
            by_cases hv : optsC.verify i = true
            · simp only [hv, if_true] at h1
              injection h1 with ha hb
              injection ha with ha
              subst hb
              exact ⟨by rw [ha], fun _ => rfl⟩
            · simp only [hv] at h1
              simp at h1
  have hfix : HttpClient.chain_info server optsC s' = (.ok info, s') :=
    chain_info_cached_fixed server optsC s' info hC hmain.1
  have hiter : ∀ m : Nat, HttpClient.chain_info_iter server optsC m s' = s' := by
    intro m
    induction m with
    | zero => rfl
    | succ k ih =>
        unfold HttpClient.chain_info_iter
        rw [hfix]
        exact ih
  have hnoc : ∀ (m : Nat) (u : ClientState),
      (HttpClient.chain_info_iter servN optsN m u).fetch_count = u.fetch_count + m := by
    intro m
    induction m with
    | zero => intro u; rfl
    | succ k ih =>
        intro u
        unfold HttpClient.chain_info_iter
        rw [ih]
        have hstep : (HttpClient.chain_info servN optsN u).2.fetch_count =
            u.fetch_count + 1 := by
          unfold HttpClient.chain_info
          rw [hN]
          simp only [Bool.false_eq_true, if_false]
          exact chain_info_no_cache_count servN optsN u
        rw [hstep]
        omega
  exact ⟨hmain.1, hmain.2, hfix, hiter n, hnoc n t⟩

/-- C8 witness: a well-behaved server; cache-enabled client starting empty,
cache-disabled client issuing 3 fetches in 3 calls. -/
theorem claim_C8_chain_info_cache_witness :
    (ChainOptions.is_cache ⟨true, true, ⟨none, none⟩⟩ = true) ∧
    (HttpClient.chain_info (fun _ => .ok exChainedInfo) ⟨true, true, ⟨none, none⟩⟩ ⟨none, 0⟩ =
      (.ok exChainedInfo, ⟨some exChainedInfo, 1⟩)) ∧
    (ChainOptions.is_cache ⟨true, false, ⟨none, none⟩⟩ = false) ∧
    (ClientState.cached_chain_info ⟨some exChainedInfo, 1⟩ = some exChainedInfo ∧
     (ClientState.cached_chain_info ⟨none, 0⟩ = none →
       ClientState.fetch_count ⟨some exChainedInfo, 1⟩ =
         ClientState.fetch_count (⟨none, 0⟩ : ClientState) + 1) ∧
     HttpClient.chain_info (fun _ => .ok exChainedInfo) ⟨true, true, ⟨none, none⟩⟩
       ⟨some exChainedInfo, 1⟩ = (.ok exChainedInfo, ⟨some exChainedInfo, 1⟩) ∧
     HttpClient.chain_info_iter (fun _ => .ok exChainedInfo) ⟨true, true, ⟨none, none⟩⟩ 3
       ⟨some exChainedInfo, 1⟩ = ⟨some exChainedInfo, 1⟩ ∧
     (HttpClient.chain_info_iter (fun _ => .ok exChainedInfo) ⟨true, false, ⟨none, none⟩⟩ 3
       ⟨none, 0⟩).fetch_count = ClientState.fetch_count (⟨none, 0⟩ : ClientState) + 3) :=
  ⟨rfl, rfl, rfl,
   claim_C8_chain_info_cache (fun _ => .ok exChainedInfo) (fun _ => .ok exChainedInfo)
     ⟨true, true, ⟨none, none⟩⟩ ⟨true, false, ⟨none, none⟩⟩ ⟨none, 0⟩ ⟨none, 0⟩
     exChainedInfo ⟨some exChainedInfo, 1⟩ 3 rfl rfl rfl⟩

/-! ### `ResetReader` (`dee` `cmd/crypt.rs`) -/

/-- State of a `ResetReader`: the remaining bytes of the wrapped reader, the
replay buffer, the read offset into it, and the buffering flag. -/
structure ResetReader where
  inner : List Nat
  buf : List Nat
  offset : Nat
  is_buffer_enabled : Bool
deriving DecidableEq, Repr

/-- `ResetReader::new`. -/
def ResetReader.new (inner : List Nat) : ResetReader :=
  { inner := inner, buf := [], offset := 0, is_buffer_enabled := true }

/-- `ResetReader::reset`: rewind the offset and stop buffering. -/
def ResetReader.reset (st : ResetReader) : ResetReader :=
  { st with offset := 0, is_buffer_enabled := false }

/-- Result of one `read` call: the bytes written into the caller's buffer and
the updated reader, or a panic. -/
inductive ReadResult where
  | ok (bytes : List Nat) (st : ResetReader)
  | panicked
deriving DecidableEq, Repr

/-- `Read::read` for `ResetReader`, with a caller buffer of size `k`. The
wrapped reader is a byte list, so an inner read returns
`min k remaining` bytes. Panics mirror the slice operations of the source:
`self.buf[..buf.len()]` when `k` exceeds the buffer, `split_at_mut` when the
unread buffered bytes exceed `k`, and `copy_from_slice` on a length
mismatch. -/
def ResetReader.read (st : ResetReader) (k : Nat) : ReadResult :=
  if st.buf.length < st.offset then
    -- Branch "buffer contains enough bytes for this read"
    if k ≤ st.buf.length then
      .ok (st.buf.take k) { st with offset := st.offset + k }
    else .panicked
  else
    let n_read_bytes := st.buf.length - st.offset
    if k < n_read_bytes then
      -- `buf.split_at_mut(n_read_bytes)` with `n_read_bytes > buf.len()`
      .panicked
    else if 0 < n_read_bytes ∧ n_read_bytes ≠ st.buf.length then
      -- `from_buf.copy_from_slice(self.buf.as_slice())` length mismatch
      .panicked
    else
      let from_buf := if n_read_bytes = 0 then [] else st.buf
      let st₁ := { st with offset := st.offset + n_read_bytes }
      if k - n_read_bytes = 0 then
        .ok from_buf st₁
      else
        let r := min (k - n_read_bytes) st₁.inner.length
        let read_bytes := st₁.inner.take r
        let st₂ := { st₁ with inner := st₁.inner.drop r }
        if st.is_buffer_enabled then
          .ok (from_buf ++ read_bytes)
            { st₂ with buf := st₂.buf ++ read_bytes, offset := st₂.offset + r }
        else
          .ok (from_buf ++ read_bytes) st₂

/-- Run a sequence of reads with the given caller-buffer sizes, concatenating
the bytes; `none` is a panic. -/
def runReads (st : ResetReader) : List Nat → Option (List Nat × ResetReader)
  | [] => some ([], st)
  | k :: ks =>
      match st.read k with
      | .panicked => none
      | .ok bs st' =>
          (runReads st' ks).map (fun p => (bs ++ p.1, p.2))

/-- Consume `pre`-sized reads from a fresh reader over `stream`, `reset()`,
then run `post`-sized reads; the bytes of the post-reset phase, or `none` on
a panic. -/
def resetScenario (stream : List Nat) (pre post : List Nat) : Option (List Nat) :=
  (runReads (ResetReader.new stream) pre).bind
    (fun p => (runReads p.2.reset post).map Prod.fst)

/-- C9: after consuming 2 bytes of the stream `[1, 2, 3]` and calling
`reset()`, reading the stream back in 1-byte chunks panics inside `read`
(`split_at_mut(2)` on a 1-byte slice) instead of replaying `[1, 2, 3]` as a
fresh reader would; a single post-reset read large enough to swallow the
whole replay buffer does return the original stream. -/
theorem claim_C9_reset_reader_panics :
    resetScenario [1, 2, 3] [2] [1, 1, 1, 1] = none ∧
    resetScenario [1, 2, 3] [2] [4] = some [1, 2, 3] ∧
    runReads (ResetReader.new [1, 2, 3]) [1, 1, 1, 1] =
      some ([1, 2, 3], ⟨[], [1, 2, 3], 3, true⟩) := by
  decide
